import Mathlib

/-!
Shallow embedding of the RootCauseAPI incident-analysis service
(`main.py`, `nlu_analyzer.py`, `cloudant_client.py`, `watsonx_client.py`).

Strings are modelled as Lean `String` / `List Char`; characters are ASCII
(the Python sources only manipulate ASCII pattern vocabulary and
stack-trace syntax, so `str.lower`, `\w`, `\s` etc. are modelled on the
ASCII range).  Python floats only occur as the literal confidence
constants (0.5, 0.85, ...), all exactly representable; they are modelled
as rationals.  External network calls (the NLU service, the watsonx
model, Cloudant, GitHub) are modelled as parameters: an `Option`
capability that is `none` when the client is not configured, carrying an
`Except` for the outcome of the single call the code makes.
-/

/-- ASCII model of Python's regex whitespace class `\s` = `[ \t\n\r\f\v]`,
also used for `str.split()` / `str.isspace` on the ASCII range. -/
def isPyWs (c : Char) : Bool :=
  c = ' ' || c = '\t' || c = '\n' || c = '\r' || c = Char.ofNat 11 || c = Char.ofNat 12

/-- ASCII model of the regex word class `\w` = `[a-zA-Z0-9_]`. -/
def isWordChar (c : Char) : Bool :=
  c.isAlphanum || c = '_'

/-- The regex class `[a-zA-Z0-9]` (no underscore), used by the generic
`ClassName.methodName` grammar. -/
def isAlnumChar (c : Char) : Bool :=
  c.isAlphanum

/-- Lowercasing of one character, modelling Python `str.lower` on ASCII. -/
def pyLowerChar (c : Char) : Char :=
  c.toLower

/-- Lowercased character list of a string (Python `s.lower()`). -/
def lowerData (s : String) : List Char :=
  s.data.map pyLowerChar

/-- Executable prefix test on character lists. -/
def startsWithCL : List Char → List Char → Bool
  | [], _ => true
  | _ :: _, [] => false
  | a :: as, b :: bs => a = b && startsWithCL as bs

/-- Executable substring test on character lists, modelling Python's
`needle in haystack` on strings. -/
def isSubstrCL (n : List Char) : List Char → Bool
  | [] => n.isEmpty
  | b :: bs => startsWithCL n (b :: bs) || isSubstrCL n bs

/-- First-seen-order deduplication, modelling Python
`list(dict.fromkeys(xs))`; `seen` accumulates the keys already emitted. -/
def pyDedupAux (seen : List String) : List String → List String
  | [] => []
  | a :: l => if a ∈ seen then pyDedupAux seen l else a :: pyDedupAux (a :: seen) l

/-- Python `list(dict.fromkeys(xs))`: duplicates removed, first
occurrence kept, order preserved. -/
def pyDedup (l : List String) : List String :=
  pyDedupAux [] l

/-- Suffix of the list after the last occurrence of `sep` (the whole
list when `sep` does not occur), modelling Python `s.split(sep)[-1]`. -/
def afterLastChar (sep : Char) (l : List Char) : List Char :=
  (l.reverse.takeWhile (fun c => c ≠ sep)).reverse

/-- Basename extraction used by the Python- and JS-grammar consumers:
`file_path.split('/')[-1].split('\\')[-1]`. -/
def pyBasename (l : List Char) : List Char :=
  afterLastChar '\\' (afterLastChar '/' l)

/-- Python `str.split()` with no argument: split on runs of whitespace,
no empty fields.  `cur` holds the current field, reversed. -/
def pySplitWsAux (cur : List Char) : List Char → List (List Char)
  | [] => if cur.isEmpty then [] else [cur.reverse]
  | c :: t =>
    if isPyWs c then
      if cur.isEmpty then pySplitWsAux [] t else cur.reverse :: pySplitWsAux [] t
    else
      pySplitWsAux (c :: cur) t

/-- Python `s.split()`. -/
def pySplitWs (l : List Char) : List (List Char) :=
  pySplitWsAux [] l

/-- The fixed error-pattern vocabulary of
`NLUAnalyzer._extract_error_patterns` (`nlu_analyzer.py` lines 94-100),
in source order. -/
def errorIndicators : List String :=
  ["Exception", "Error", "Failed", "Timeout",
   "NullPointer", "OutOfMemory", "Connection refused",
   "404", "500", "503", "FATAL", "CRITICAL",
   "TypeError", "ValueError", "KeyError", "AttributeError",
   "IndexError", "ImportError", "ModuleNotFoundError"]

/-- `NLUAnalyzer._extract_error_patterns` (`nlu_analyzer.py` lines
91-106): scan the vocabulary in order, keeping each indicator whose
lowercase form is a substring of the lowercase log text. -/
def extract_error_patterns (logText : String) : List String :=
  errorIndicators.filter (fun ind => isSubstrCL (lowerData ind) (lowerData logText))

/-- The reduced pattern vocabulary of the no-NLU fallback in
`main.py` (line 127) and `/analyze-log-only` (line 224). -/
def basicIndicators : List String :=
  ["Exception", "Error", "Failed", "Timeout", "500", "404"]

/-- The basic fallback pattern detection of `main.py` lines 126-129:
same case-insensitive substring scan, over the reduced vocabulary. -/
def basic_error_patterns (logText : String) : List String :=
  basicIndicators.filter (fun ind => isSubstrCL (lowerData ind) (lowerData logText))

/-!
Regex scanners for `extract_code_references` (`nlu_analyzer.py` lines
108-205).  Each Python `re.finditer` call is modelled as a scanner that,
at every position from left to right, attempts the whole pattern and on
success emits the capture groups and resumes after the match
(non-overlapping, leftmost semantics).  Each `tryXxxAt` function is the
deterministic residue of the corresponding pattern's backtracking
search, derived group by group from the pattern.
-/

/-- Capture groups of one Java-trace match:
`at\s+([\w\.]+)\.([\w]+)\(([\w]+\.java):(\d+)\)` -/
structure JavaMatch where
  classPath : List Char
  method : List Char
  file : List Char
  line : List Char
deriving DecidableEq

/-- Attempt the Java-trace pattern at the head of `t`.  The dotted-path
group is the maximal `[\w.]` run split at its last dot (greedy `[\w\.]+`
backtracks exactly to the last dot, since group 2 is dot-free and must
be followed by a literal parenthesis). -/
def tryJavaAt (t : List Char) : Option (JavaMatch × List Char) :=
  match t with
  | 'a' :: 't' :: rest =>
    let ws := rest.takeWhile isPyWs
    if ws.isEmpty then none else
    let r1 := rest.dropWhile isPyWs
    let run := r1.takeWhile (fun c => isWordChar c || c = '.')
    match r1.drop run.length with
    | '(' :: r3 =>
      let g2 := (run.reverse.takeWhile (fun c => c ≠ '.')).reverse
      if g2.length = run.length then none else
      if g2.isEmpty then none else
      let g1 := run.take (run.length - g2.length - 1)
      if g1.isEmpty then none else
      let w := r3.takeWhile isWordChar
      if w.isEmpty then none else
      match r3.drop w.length with
      | '.' :: 'j' :: 'a' :: 'v' :: 'a' :: ':' :: r5 =>
        let d := r5.takeWhile Char.isDigit
        if d.isEmpty then none else
        match r5.drop d.length with
        | ')' :: r6 => some (⟨g1, g2, w ++ ".java".data, d⟩, r6)
        | _ => none
      | _ => none
    | _ => none
  | _ => none

/-- Capture groups of one Python-trace match:
`File\s+"([^"]+\.py)",\s+line\s+(\d+),\s+in\s+(\w+)` -/
structure PyMatch where
  filePath : List Char
  line : List Char
  method : List Char
deriving DecidableEq

/-- Attempt the Python-trace pattern at the head of `t`.  The file group
`[^"]+\.py` must consume the entire quote-free run (the next pattern
character is the closing quote), so it matches exactly when that run
ends in `.py` with a nonempty stem.  The method group is `\w+`: a
maximal nonempty word run. -/
def tryPyAt (t : List Char) : Option (PyMatch × List Char) :=
  match t with
  | 'F' :: 'i' :: 'l' :: 'e' :: rest =>
    if (rest.takeWhile isPyWs).isEmpty then none else
    match rest.dropWhile isPyWs with
    | '"' :: r2 =>
      let m := r2.takeWhile (fun c => c ≠ '"')
      if startsWithCL ".py".data.reverse m.reverse = false then none else
      if m.length < 4 then none else
      match r2.drop m.length with
      | '"' :: ',' :: r3 =>
        if (r3.takeWhile isPyWs).isEmpty then none else
        match r3.dropWhile isPyWs with
        | 'l' :: 'i' :: 'n' :: 'e' :: r4 =>
          if (r4.takeWhile isPyWs).isEmpty then none else
          let r5 := r4.dropWhile isPyWs
          let d := r5.takeWhile Char.isDigit
          if d.isEmpty then none else
          match r5.drop d.length with
          | ',' :: r6 =>
            if (r6.takeWhile isPyWs).isEmpty then none else
            match r6.dropWhile isPyWs with
            | 'i' :: 'n' :: r7 =>
              if (r7.takeWhile isPyWs).isEmpty then none else
              let r8 := r7.dropWhile isPyWs
              let w := r8.takeWhile isWordChar
              if w.isEmpty then none else
              some (⟨m, d, w⟩, r8.drop w.length)
            | _ => none
          | _ => none
        | _ => none
      | _ => none
    | _ => none
  | _ => none

/-- Capture groups of one JS-trace match:
`at\s+(\w+)?\s*\(?([^\s\)]+\.(js|ts|tsx)):(\d+):\d+\)?`; the optional
method group is `none` when `(\w+)?` matched empty. -/
structure JsMatch where
  method : Option (List Char)
  filePath : List Char
deriving DecidableEq

/-- Tail of the JS pattern after a candidate file stem: `:(\d+):\d+\)?`.
Returns the remaining text after the (optionally consumed) closing
parenthesis. -/
def jsAfterExt (r : List Char) : Option (List Char) :=
  match r with
  | ':' :: r2 =>
    let d1 := r2.takeWhile Char.isDigit
    if d1.isEmpty then none else
    match r2.drop d1.length with
    | ':' :: r3 =>
      let d2 := r3.takeWhile Char.isDigit
      if d2.isEmpty then none else
      match r3.drop d2.length with
      | ')' :: r5 => some r5
      | r4 => some r4
    | _ => none
  | _ => none

/-- Character class `[^\s\)]` of the JS file group. -/
def jsClassChar (c : Char) : Bool :=
  !(isPyWs c) && c ≠ ')'

/-- Try stem length `len` for the JS file group at `p`: the stem, a dot,
one of the extensions (alternation order `js`, `ts`, `tsx`), then the
`:line:col` tail.  Returns the full file group and the rest. -/
def jsTryStem (p : List Char) (len : Nat) : Option (List Char × List Char) :=
  let y := p.take len
  match p.drop len with
  | '.' :: r2 =>
    (if startsWithCL "js".data r2 then
      (jsAfterExt (r2.drop 2)).map (fun rest => (y ++ '.' :: "js".data, rest))
    else none) <|>
    (if startsWithCL "ts".data r2 then
      (jsAfterExt (r2.drop 2)).map (fun rest => (y ++ '.' :: "ts".data, rest))
    else none) <|>
    (if startsWithCL "tsx".data r2 then
      (jsAfterExt (r2.drop 3)).map (fun rest => (y ++ '.' :: "tsx".data, rest))
    else none)
  | _ => none

/-- Greedy backtracking over the stem length of the JS file group, from
longest to shortest (`[^\s\)]+` is greedy). -/
def jsStemAux (p : List Char) : Nat → Option (List Char × List Char)
  | 0 => none
  | n + 1 => jsTryStem p (n + 1) <|> jsStemAux p n

/-- Match the JS file group and tail `([^\s\)]+\.(js|ts|tsx)):(\d+):\d+\)?`
at `p`. -/
def jsFileTail (p : List Char) : Option (List Char × List Char) :=
  jsStemAux p (p.takeWhile jsClassChar).length

/-- One attempt of the JS pattern after the optional method group:
`\s*` is forced maximal (everything that follows excludes whitespace),
then `\(?` greedily consumes a parenthesis, retrying without it on
failure (`(` itself lies in the file-group class). -/
def jsAfterMethod (g1 : Option (List Char)) (r2 : List Char) : Option (JsMatch × List Char) :=
  let r3 := r2.dropWhile isPyWs
  match r3 with
  | '(' :: r4 =>
    ((jsFileTail r4).map (fun pr => (⟨g1, pr.1⟩, pr.2))) <|>
    ((jsFileTail r3).map (fun pr => (⟨g1, pr.1⟩, pr.2)))
  | _ => (jsFileTail r3).map (fun pr => (⟨g1, pr.1⟩, pr.2))

/-- Backtracking over the optional method group `(\w+)?`: word runs from
longest to shortest, then the empty alternative (`none`). -/
def jsMethodAux (r1 : List Char) : Nat → Option (JsMatch × List Char)
  | 0 => jsAfterMethod none r1
  | k + 1 => jsAfterMethod (some (r1.take (k + 1))) (r1.drop (k + 1)) <|> jsMethodAux r1 k

/-- Attempt the JS-trace pattern at the head of `t`. -/
def tryJsAt (t : List Char) : Option (JsMatch × List Char) :=
  match t with
  | 'a' :: 't' :: rest =>
    if (rest.takeWhile isPyWs).isEmpty then none else
    let r1 := rest.dropWhile isPyWs
    jsMethodAux r1 (r1.takeWhile isWordChar).length
  | _ => none

/-- Capture groups of one generic `ClassName.methodName` match:
`\b([A-Z][a-zA-Z0-9]+)\.([a-z][a-zA-Z0-9]+)\b` -/
structure GenericMatch where
  className : List Char
  method : List Char
deriving DecidableEq

/-- Attempt the generic pattern at the head of `t`; `prev` is the
character before this position (`none` at the start of the text), used
for the leading word boundary.  Both alphanumeric runs are forced
maximal: shorter runs leave an alphanumeric next character, failing the
following literal dot resp. the trailing word boundary. -/
def tryGenericAt (prev : Option Char) (t : List Char) : Option (GenericMatch × List Char) :=
  match t with
  | c :: r1 =>
    if !('A' ≤ c && c ≤ 'Z') then none else
    if (prev.map isWordChar).getD false then none else
    let run1 := r1.takeWhile isAlnumChar
    if run1.isEmpty then none else
    match r1.drop run1.length with
    | '.' :: m :: r4 =>
      if !('a' ≤ m && m ≤ 'z') then none else
      let run2 := r4.takeWhile isAlnumChar
      if run2.isEmpty then none else
      let r5 := r4.drop run2.length
      match r5.head? with
      | some nxt => if isWordChar nxt then none else some (⟨c :: run1, m :: run2⟩, r5)
      | none => some (⟨c :: run1, m :: run2⟩, r5)
    | _ => none
  | [] => none

/-- The source-file extension alternation of the bare `file:line`
pattern, in the pattern's order. -/
def fileLineExts : List (List Char) :=
  ["java".data, "py".data, "js".data, "ts".data, "tsx".data, "go".data,
   "rb".data, "cpp".data, "c".data, "rs".data]

/-- Try the extension alternatives of the `file:line` pattern at `r3`
(the text after the dot): each must be followed by a colon, a maximal
nonempty digit run, and a trailing word boundary. -/
def fileLineTryExts (stem : List Char) (r3 : List Char) : List (List Char) → Option (List Char × List Char)
  | [] => none
  | ext :: more =>
    (if startsWithCL ext r3 then
      match r3.drop ext.length with
      | ':' :: r4 =>
        let d := r4.takeWhile Char.isDigit
        if d.isEmpty then none else
        match (r4.drop d.length).head? with
        | some nxt => if isWordChar nxt then none else some (stem ++ '.' :: ext, r4.drop d.length)
        | none => some (stem ++ '.' :: ext, r4.drop d.length)
      | _ => none
    else none) <|> fileLineTryExts stem r3 more

/-- Attempt the bare `file:line` pattern
`\b([\w\-]+\.(java|py|js|ts|tsx|go|rb|cpp|c|rs)):(\d+)\b` at the head of
`t`; `prev` is the character before this position.  The leading word
boundary depends on whether the first stem character is a word character
or a hyphen. -/
def tryFileLineAt (prev : Option Char) (t : List Char) : Option (List Char × List Char) :=
  match t with
  | c :: _ =>
    if !(isWordChar c || c = '-') then none else
    let prevWord := (prev.map isWordChar).getD false
    if isWordChar c then
      if prevWord then none else
      fileLineStep t
    else
      if prevWord then fileLineStep t else none
  | [] => none
where
  fileLineStep (t : List Char) : Option (List Char × List Char) :=
    let run := t.takeWhile (fun c => isWordChar c || c = '-')
    match t.drop run.length with
    | '.' :: r3 => fileLineTryExts run r3 fileLineExts
    | _ => none

/-- Generic `re.finditer` driver: at each position try the pattern; on a
match emit the captures and resume after the consumed characters, else
advance one character.  `prev` tracks the character before the current
position (for word boundaries); `fuel` bounds the recursion and is
always called with more fuel than the text length. -/
def runScan {α : Type} (tryFn : Option Char → List Char → Option (α × List Char)) :
    Nat → Option Char → List Char → List α
  | 0, _, _ => []
  | fuel + 1, prev, t =>
    match tryFn prev t with
    | some (a, rest) =>
      a :: runScan tryFn fuel ((t.take (t.length - rest.length)).getLast?) rest
    | none =>
      match t with
      | [] => []
      | c :: cs => runScan tryFn fuel (some c) cs

/-- All Java-trace matches of a text, in order. -/
def javaMatches (t : List Char) : List JavaMatch :=
  runScan (fun _ s => tryJavaAt s) (t.length + 1) none t

/-- All Python-trace matches of a text, in order. -/
def pyMatches (t : List Char) : List PyMatch :=
  runScan (fun _ s => tryPyAt s) (t.length + 1) none t

/-- All JS-trace matches of a text, in order. -/
def jsMatches (t : List Char) : List JsMatch :=
  runScan (fun _ s => tryJsAt s) (t.length + 1) none t

/-- All generic `ClassName.methodName` matches of a text, in order. -/
def genericMatches (t : List Char) : List GenericMatch :=
  runScan tryGenericAt (t.length + 1) none t

/-- All bare `file:line` matches of a text, in order. -/
def fileLineMatches (t : List Char) : List (List Char) :=
  runScan tryFileLineAt (t.length + 1) none t

/-- The four reference lists built by `extract_code_references`
(`nlu_analyzer.py` lines 115-120), in the source's key order. -/
structure CodeRefs where
  files : List String
  classes : List String
  methods : List String
  search_terms : List String
deriving DecidableEq

/-- The empty initial reference record. -/
def emptyRefs : CodeRefs :=
  ⟨[], [], [], []⟩

/-- Append `x` unless already present (the `if x not in refs[key]:
refs[key].append(x)` idiom). -/
def appendNew (l : List String) (x : String) : List String :=
  if x ∈ l then l else l ++ [x]

/-- Consume one Java-trace match (`nlu_analyzer.py` lines 124-141):
class name is the last dotted-path segment; file, class and method are
guarded appends; the `"class method"` search term is appended
unconditionally. -/
def addJavaMatch (refs : CodeRefs) (m : JavaMatch) : CodeRefs :=
  let className := String.mk (afterLastChar '.' m.classPath)
  { files := appendNew refs.files (String.mk m.file)
    classes := appendNew refs.classes className
    methods := appendNew refs.methods (String.mk m.method)
    search_terms := refs.search_terms ++ [className ++ " " ++ String.mk m.method] }

/-- Consume one Python-trace match (`nlu_analyzer.py` lines 145-158):
file is the basename of the path group; the method append is guarded
both by membership and by the method not being the literal
`"<module>"`; the `"file method"` search term is appended
unconditionally. -/
def addPyMatch (refs : CodeRefs) (m : PyMatch) : CodeRefs :=
  let file := String.mk (pyBasename m.filePath)
  let method := String.mk m.method
  { files := appendNew refs.files file
    classes := refs.classes
    methods := if method ∈ refs.methods ∨ method = "<module>" then refs.methods
               else refs.methods ++ [method]
    search_terms := refs.search_terms ++ [file ++ " " ++ method] }

/-- Consume one JS-trace match (`nlu_analyzer.py` lines 162-176): an
absent method group becomes the empty string; method append and the
shape of the search term are conditioned on the method being nonempty. -/
def addJsMatch (refs : CodeRefs) (m : JsMatch) : CodeRefs :=
  let method := String.mk (m.method.getD [])
  let file := String.mk (pyBasename m.filePath)
  { files := appendNew refs.files file
    classes := refs.classes
    methods := if method ≠ "" ∧ method ∉ refs.methods then refs.methods ++ [method]
               else refs.methods
    search_terms := refs.search_terms ++
      [if method ≠ "" then file ++ " " ++ method else file] }

/-- Consume one generic `ClassName.methodName` match (`nlu_analyzer.py`
lines 180-189). -/
def addGenericMatch (refs : CodeRefs) (m : GenericMatch) : CodeRefs :=
  let className := String.mk m.className
  let method := String.mk m.method
  { files := refs.files
    classes := appendNew refs.classes className
    methods := appendNew refs.methods method
    search_terms := refs.search_terms ++ [className ++ " " ++ method] }

/-- Consume one bare `file:line` match (`nlu_analyzer.py` lines
193-197): both the file append and the search-term append sit inside
the same membership guard. -/
def addFileLineMatch (refs : CodeRefs) (f : List Char) : CodeRefs :=
  let file := String.mk f
  if file ∈ refs.files then refs
  else { refs with files := refs.files ++ [file],
                   search_terms := refs.search_terms ++ [file] }

/-- The reference record accumulated by the five grammars in source
order, before the final deduplicate-and-truncate step. -/
def extractRefsRaw (logText : String) : CodeRefs :=
  let t := logText.data
  let r1 := (javaMatches t).foldl addJavaMatch emptyRefs
  let r2 := (pyMatches t).foldl addPyMatch r1
  let r3 := (jsMatches t).foldl addJsMatch r2
  let r4 := (genericMatches t).foldl addGenericMatch r3
  (fileLineMatches t).foldl addFileLineMatch r4

/-- `NLUAnalyzer.extract_code_references` (`nlu_analyzer.py` lines
108-205): run the five grammars, then deduplicate each list keeping
first occurrences and truncate to 10 entries (lines 199-203). -/
def extract_code_references (logText : String) : CodeRefs :=
  let r := extractRefsRaw logText
  { files := (pyDedup r.files).take 10
    classes := (pyDedup r.classes).take 10
    methods := (pyDedup r.methods).take 10
    search_terms := (pyDedup r.search_terms).take 10 }

/-!
Embedding of the incident pipeline (`main.py`), the watsonx adapter
(`watsonx_client.py`) and the in-memory correlation matcher.  The
Cloudant branch (`cloudant_client.py`) delegates candidate selection to
an external database query and is not modelled; the claims about
correlation concern the in-memory matcher `_find_similar_incidents`,
which runs whenever Cloudant is not configured.
-/

/-- One processed NLU entity (`_process_entities`, `nlu_analyzer.py`
lines 68-78); absent dict keys are `none`. -/
structure NluEntity where
  entityType : Option String
  text : Option String
  relevance : Option ℚ
  confidence : Option ℚ
deriving DecidableEq

/-- One processed NLU keyword (`_process_keywords`, `nlu_analyzer.py`
lines 80-89).  The fallback keywords of `main.py` line 121 carry only
`text`. -/
structure NluKeyword where
  text : String
  relevance : Option ℚ
  sentiment : Option String
deriving DecidableEq

/-- One raw NLU category (passed through unprocessed,
`nlu_analyzer.py` line 60). -/
structure NluCategory where
  label : Option String
  score : Option ℚ
deriving DecidableEq

/-- Raw payload of a successful external NLU `analyze` call, after the
`.get(key, [])` accesses of `analyze_error_log`. -/
structure NluApiResponse where
  entities : List NluEntity
  keywords : List NluKeyword
  categories : List NluCategory
deriving DecidableEq

/-- The three dict shapes that can flow into `nlu_result` in
`analyze_root_cause`: the success dict of `analyze_error_log`, its
`{"error": ...}` dict when the NLU call raises, and the no-NLU fallback
dict of `main.py` lines 119-129 (which has only the four listed keys). -/
inductive NluResultShape where
  | success (entities : List NluEntity) (keywords : List NluKeyword)
      (categories : List NluCategory) (error_patterns : List String)
      (code_references : CodeRefs)
  | failure (error : String)
  | fallback (keywords : List NluKeyword) (error_patterns : List String)
deriving DecidableEq

/-- `nlu_result.get("error_patterns", [])`: the failure dict has no such
key, so it yields the default. -/
def getErrorPatterns : NluResultShape → List String
  | .success _ _ _ ps _ => ps
  | .failure _ => []
  | .fallback _ ps => ps

/-- `nlu_result.get("keywords", [])`. -/
def getKeywords : NluResultShape → List NluKeyword
  | .success _ ks _ _ _ => ks
  | .failure _ => []
  | .fallback ks _ => ks

/-- `NLUAnalyzer.analyze_error_log` (`nlu_analyzer.py` lines 28-66).
The external `self.nlu.analyze` call is the first statement of the
`try` block; its outcome is a parameter.  On success the analyzer adds
the locally computed pattern and code-reference extractions; if the
call raises, the `except` branch returns the bare error dict, so the
local extractions never run. -/
def analyze_error_log (callOutcome : Except String NluApiResponse) (logText : String) :
    NluResultShape :=
  match callOutcome with
  | .ok resp => .success resp.entities resp.keywords resp.categories
      (extract_error_patterns logText) (extract_code_references logText)
  | .error e => .failure e

/-- The dict returned by `WatsonxClient.analyze_root_cause`
(`watsonx_client.py` lines 77-107) as observed through the `.get`
accesses of `main.py` lines 156-158: the failure dict has no
`"analysis"` key. -/
structure WatsonxDict where
  analysis : Option String
  severity : String
  confidence : ℚ
deriving DecidableEq

/-- Severity/confidence parsing of the generated text
(`watsonx_client.py` lines 81-92): case-sensitive substring checks in
source order. -/
def watsonxParse (generatedText : String) : String × ℚ :=
  if isSubstrCL "Critical".data generatedText.data then ("Critical", 85/100)
  else if isSubstrCL "High".data generatedText.data then ("High", 75/100)
  else if isSubstrCL "Low".data generatedText.data then ("Low", 6/10)
  else ("Medium", 1/2)

/-- `WatsonxClient.analyze_root_cause`: the external `generate` call is
a parameter (`.ok` carries the extracted `generated_text`); the
`except` branch returns severity `"Unknown"` and confidence 0. -/
def watsonx_analyze_root_cause (genOutcome : Except String String) : WatsonxDict :=
  match genOutcome with
  | .ok text => ⟨some text, (watsonxParse text).1, (watsonxParse text).2⟩
  | .error _ => ⟨none, "Unknown", 0⟩

/-- One record of the in-memory `incidents_store` (`main.py` lines
177-187). -/
structure IncidentRecord where
  incident_id : String
  timestamp : String
  error_log : String
  repo_url : Option String
  incident_type : String
  severity : String
  confidence : ℚ
  nlu_analysis : NluResultShape
  root_cause_analysis : String
deriving DecidableEq

/-- One similarity hit as built by `_find_similar_incidents`
(`main.py` lines 330-335). -/
structure SimilarHit where
  id : String
  severity : String
  created_at : String
  matching_pattern : String
deriving DecidableEq

/-- `_find_similar_incidents` (`main.py` lines 322-337): scan the last
20 stored incidents in store order; for each, the inner loop walks the
query patterns in order and appends one hit at the first pattern
contained in the candidate's pattern set (then `break`s); finally the
hit list is truncated to 5. -/
def find_similar_incidents (incidents_store : List IncidentRecord)
    (error_patterns : List String) : List SimilarHit :=
  (((incidents_store.drop (incidents_store.length - 20)).filterMap fun incident =>
    (error_patterns.find? fun p =>
        (getErrorPatterns incident.nlu_analysis).contains p).map fun p =>
      ({ id := incident.incident_id, severity := incident.severity,
         created_at := incident.timestamp, matching_pattern := p } : SimilarHit))).take 5

/-- The `/analyze` request body (`main.py` lines 77-81). -/
structure AnalyzeRequest where
  error_log : String
  repo_url : Option String
  github_pat : Option String
  incident_type : String
deriving DecidableEq

/-- The `/analyze` response (`main.py` lines 84-92). -/
structure AnalyzeResponse where
  incident_id : String
  severity : String
  root_cause : String
  evidence : List String
  suggested_fix : String
  confidence : ℚ
  similar_incidents : List SimilarHit
  nlu_analysis : NluResultShape
deriving DecidableEq

/-- The capability configuration of the service, as set up by
`startup()`: `none` models a client that failed to initialise.  A
present capability carries the outcome of the single external call the
pipeline would make for this request.  The GitHub code-context fetch
only feeds the watsonx prompt, whose output is already the `watsonx`
parameter, so it has no separate observable effect; Cloudant is taken
as not configured (in-memory storage branch). -/
structure PipelineDeps where
  nlu : Option (Except String NluApiResponse)
  watsonx : Option (Except String String)

/-- The single quote character, for Python `repr` of strings. -/
def singleQuoteChar : Char :=
  Char.ofNat 39

/-- Python `repr` of a list of strings as interpolated by an f-string
(`f"{patterns}"`), for strings without quotes or escapes:
`['a', 'b']`. -/
def pyReprStrList (l : List String) : String :=
  "[" ++ String.intercalate ", "
    (l.map fun s => String.mk (singleQuoteChar :: s.data ++ [singleQuoteChar])) ++ "]"

/-- The no-LLM fallback narrative template of `main.py` lines 163-172
(a triple-quoted f-string beginning and ending with a newline). -/
def fallbackNarrative (patterns : List String) (keywords : List String) : String :=
  "\nProbable Root Cause: Based on error patterns " ++ pyReprStrList patterns ++
  ", there appears to be an issue in the application.\n\nEvidence: Keywords found - " ++
  pyReprStrList keywords ++
  "\n\nSuggested Fix: Review the code related to the error patterns and add proper error handling.\n\nSeverity: Medium\nConfidence: 50%\n"

/-- `analyze_root_cause` (`main.py` lines 101-211), in-memory storage
branch.  `newId` and `timestamp` are the request's generated incident
id (`INC-` + 8 uppercase hex chars of a fresh UUID) and UTC timestamp.
Returns the response together with the updated incident store; note
that the new incident is appended to the store (line 193) *before*
`_find_similar_incidents` scans it (line 200). -/
def analyze_root_cause (deps : PipelineDeps) (incidents_store : List IncidentRecord)
    (newId timestamp : String) (request : AnalyzeRequest) :
    AnalyzeResponse × List IncidentRecord :=
  -- Step 1: NLU analysis, or the basic fallback of lines 118-129.
  let nlu_result : NluResultShape :=
    match deps.nlu with
    | some outcome => analyze_error_log outcome request.error_log
    | none =>
      .fallback (((pySplitWs request.error_log.data).take 10).map
          fun w => ⟨String.mk w, none, none⟩)
        (basic_error_patterns request.error_log)
  -- Step 3: watsonx analysis, or the template fallback of lines 160-172.
  let triple : String × String × ℚ :=
    match deps.watsonx with
    | some gen =>
      let d := watsonx_analyze_root_cause gen
      (d.analysis.getD "", d.severity, d.confidence)
    | none =>
      (fallbackNarrative (getErrorPatterns nlu_result)
        (((getKeywords nlu_result).take 5).map NluKeyword.text), "Medium", 1/2)
  -- Step 4: store the incident (append happens before correlation).
  let incident : IncidentRecord :=
    { incident_id := newId, timestamp := timestamp,
      error_log := String.mk (request.error_log.data.take 500),
      repo_url := request.repo_url, incident_type := request.incident_type,
      severity := triple.2.1, confidence := triple.2.2,
      nlu_analysis := nlu_result, root_cause_analysis := triple.1 }
  let store' := incidents_store ++ [incident]
  -- Step 5: correlation against the already-updated store.
  let similar := find_similar_incidents store' (getErrorPatterns nlu_result)
  ({ incident_id := newId, severity := triple.2.1, root_cause := triple.1,
     evidence := getErrorPatterns nlu_result,
     suggested_fix := "See analysis above for specific recommendations",
     confidence := triple.2.2, similar_incidents := similar,
     nlu_analysis := nlu_result }, store')


/-!
Concrete fixtures used by the per-claim theorems.
-/

/-- A degraded configuration: no NLU analyzer, no watsonx client
(both failed to initialise at startup). -/
def degradedDeps : PipelineDeps :=
  ⟨none, none⟩

/-- A request carrying only an error log (no repository, no token,
default incident type). -/
def plainRequest (log : String) : AnalyzeRequest :=
  ⟨log, none, none, "unknown"⟩

/-- The Java stack-trace example of the specification. -/
def javaTraceExample : String :=
  "...\n\tat com.app.OrderService.process(OrderService.java:42)\n"

/-- A Python module-level stack frame. -/
def moduleFrameExample : String :=
  "File \"p.py\", line 3, in <module>"

/-- A stored incident with the given id and pattern set (remaining
fields as the degraded pipeline would produce them). -/
def mkStoredIncident (id : String) (ts : String) (ps : List String) : IncidentRecord :=
  { incident_id := id, timestamp := ts, error_log := "",
    repo_url := none, incident_type := "unknown", severity := "Medium",
    confidence := 1/2, nlu_analysis := .fallback [] ps,
    root_cause_analysis := "" }

/-- Incident A of the specification's correlation example. -/
def incidentA : IncidentRecord :=
  mkStoredIncident "INC-A" "2025-01-01T00:00:00" ["Timeout", "500"]

/-- Incident B of the specification's correlation example. -/
def incidentB : IncidentRecord :=
  mkStoredIncident "INC-B" "2025-01-02T00:00:00" ["500", "KeyError"]

/-- An incident with no pattern in common with the query `["500"]`. -/
def incidentC : IncidentRecord :=
  mkStoredIncident "INC-C" "2025-01-03T00:00:00" ["KeyError"]

/-- An incident whose id collides with another store entry. -/
def dupIncident : IncidentRecord :=
  mkStoredIncident "INC-D" "2025-01-04T00:00:00" ["500"]

/-- `matchingPattern` is the first query pattern, in query order, that
occurs in the candidate pattern set: `qs` splits as `pre ++ p :: post`
with `p` in the candidate set and nothing in `pre` in it. -/
def IsFirstPresentIn (qs cand : List String) (p : String) : Prop :=
  ∃ pre post, qs = pre ++ p :: post ∧ p ∈ cand ∧ ∀ q ∈ pre, q ∉ cand

/-!
Helper lemmas.
-/

theorem startsWithCL_iff (n : List Char) : ∀ h : List Char, startsWithCL n h = true ↔ n <+: h := by
  induction n with
  | nil => intro h; simp [startsWithCL]
  | cons a as ih =>
    intro h
    cases h with
    | nil => simp [startsWithCL]
    | cons b bs =>
      simp only [startsWithCL, Bool.and_eq_true, decide_eq_true_eq, ih bs,
        List.cons_prefix_cons]

theorem isSubstrCL_iff (n : List Char) : ∀ h : List Char, isSubstrCL n h = true ↔ n <:+: h := by
  intro h
  induction h with
  | nil => simp [isSubstrCL, List.isEmpty_iff]
  | cons b bs ih =>
    rw [isSubstrCL, Bool.or_eq_true, startsWithCL_iff, ih, List.infix_cons_iff]

theorem pyDedupAux_sublist (seen : List String) :
    ∀ l : List String, List.Sublist (pyDedupAux seen l) l := by
  intro l
  induction l generalizing seen with
  | nil => simp [pyDedupAux]
  | cons a l ih =>
    by_cases h : a ∈ seen
    · simpa [pyDedupAux, h] using (ih seen).trans (List.sublist_cons_self a l)
    · simpa [pyDedupAux, h] using (ih (a :: seen)).cons₂ a

theorem pyDedupAux_not_mem_seen (seen : List String) :
    ∀ l x, x ∈ pyDedupAux seen l → x ∉ seen := by
  intro l
  induction l generalizing seen with
  | nil => simp [pyDedupAux]
  | cons a l ih =>
    intro x hx
    by_cases h : a ∈ seen
    · exact ih seen x (by simpa [pyDedupAux, h] using hx)
    · rcases (by simpa [pyDedupAux, h] using hx : x = a ∨ x ∈ pyDedupAux (a :: seen) l) with
        rfl | hmem
      · exact h
      · intro hxs
        exact ih (a :: seen) x hmem (List.mem_cons_of_mem a hxs)

theorem pyDedupAux_nodup (seen : List String) :
    ∀ l : List String, (pyDedupAux seen l).Nodup := by
  intro l
  induction l generalizing seen with
  | nil => simp [pyDedupAux]
  | cons a l ih =>
    by_cases h : a ∈ seen
    · simpa [pyDedupAux, h] using ih seen
    · have hna : a ∉ pyDedupAux (a :: seen) l := fun hmem =>
        pyDedupAux_not_mem_seen (a :: seen) l a hmem (List.mem_cons_self a seen)
      simpa [pyDedupAux, h, List.nodup_cons, hna] using ih (a :: seen)

theorem pyDedup_sublist (l : List String) : List.Sublist (pyDedup l) l :=
  pyDedupAux_sublist [] l

theorem pyDedup_nodup (l : List String) : (pyDedup l).Nodup :=
  pyDedupAux_nodup [] l

theorem contains_eq_true_iff_mem (cand : List String) (p : String) :
    cand.contains p = true ↔ p ∈ cand := by
  simp

theorem find?_contains_eq_some_iff (cand : List String) (p : String) :
    ∀ qs : List String,
      qs.find? (fun q => cand.contains q) = some p ↔ IsFirstPresentIn qs cand p := by
  intro qs
  induction qs with
  | nil =>
    simp only [List.find?_nil, IsFirstPresentIn]
    constructor
    · intro h; cases h
    · rintro ⟨pre, post, h, -, -⟩
      exact absurd h (by simp)
  | cons a qs ih =>
    by_cases ha : cand.contains a = true
    · rw [List.find?_cons_of_pos _ ha]
      constructor
      · intro h
        have hap : a = p := by injection h
        subst hap
        exact ⟨[], qs, rfl, (contains_eq_true_iff_mem cand a).mp ha, by simp⟩
      · rintro ⟨pre, post, heq, hp, hpre⟩
        cases pre with
        | nil =>
          simp only [List.nil_append, List.cons.injEq] at heq
          exact congrArg some heq.1
        | cons b pre' =>
          simp only [List.cons_append, List.cons.injEq] at heq
          exact absurd (heq.1 ▸ (contains_eq_true_iff_mem cand a).mp ha)
            (hpre b (List.mem_cons_self b pre'))
    · rw [List.find?_cons_of_neg _ ha, ih]
      constructor
      · rintro ⟨pre, post, heq, hp, hpre⟩
        refine ⟨a :: pre, post, by rw [heq, List.cons_append], hp, ?_⟩
        intro q hq
        rcases List.mem_cons.mp hq with rfl | hq'
        · exact fun hmem => ha ((contains_eq_true_iff_mem cand q).mpr hmem)
        · exact hpre q hq'
      · rintro ⟨pre, post, heq, hp, hpre⟩
        cases pre with
        | nil =>
          simp only [List.nil_append, List.cons.injEq] at heq
          exact absurd (heq.1.symm ▸ (contains_eq_true_iff_mem cand p).mpr hp) ha
        | cons b pre' =>
          simp only [List.cons_append, List.cons.injEq] at heq
          exact ⟨pre', post, heq.2, hp, fun q hq => hpre q (List.mem_cons_of_mem b hq)⟩

theorem mem_find_similar_incidents (store : List IncidentRecord) (qs : List String)
    (h : SimilarHit) (hmem : h ∈ find_similar_incidents store qs) :
    ∃ inc, inc ∈ store ∧
      qs.find? (fun p => (getErrorPatterns inc.nlu_analysis).contains p) =
        some h.matching_pattern ∧
      h.id = inc.incident_id ∧ h.severity = inc.severity ∧ h.created_at = inc.timestamp := by
  have hmem' := List.take_subset 5 _ hmem
  obtain ⟨inc, hincw, heq⟩ := List.mem_filterMap.mp hmem'
  obtain ⟨p, hfind, hmk⟩ := Option.map_eq_some'.mp heq
  refine ⟨inc, List.drop_subset _ _ hincw, ?_, ?_, ?_, ?_⟩
  · rw [hfind]; subst hmk; rfl
  · subst hmk; rfl
  · subst hmk; rfl
  · subst hmk; rfl

theorem map_filterMap_sublist {α β γ : Type} (f : α → Option β) (g : β → γ) (h : α → γ)
    (hfg : ∀ a b, f a = some b → g b = h a) :
    ∀ l : List α, List.Sublist ((l.filterMap f).map g) (l.map h) := by
  intro l
  induction l with
  | nil => simp
  | cons a l ih =>
    cases hfa : f a with
    | none =>
      rw [List.map_cons, List.filterMap_cons, hfa]
      exact ih.trans (List.sublist_cons_self (h a) (l.map h))
    | some b =>
      rw [List.map_cons, List.filterMap_cons, hfa, List.map_cons, hfg a b hfa]
      exact ih.cons₂ (h a)

theorem dedup_take_ten_spec (l : List String) :
    ((pyDedup l).take 10).length ≤ 10 ∧ ((pyDedup l).take 10).Nodup ∧
      List.Sublist ((pyDedup l).take 10) l := by
  refine ⟨?_, ?_, ?_⟩
  · simp [List.length_take_le]
  · exact (List.take_sublist 10 (pyDedup l)).nodup (pyDedup_nodup l)
  · exact (List.take_sublist 10 (pyDedup l)).trans (pyDedup_sublist l)

theorem string_append_ne_empty (s t : String) (h : s.length ≠ 0) : s ++ t ≠ "" := by
  intro heq
  have h2 : (s ++ t).length = 0 := by rw [heq]; rfl
  rw [String.length_append] at h2
  omega

theorem fallbackNarrative_ne_empty (ps ks : List String) : fallbackNarrative ps ks ≠ "" := by
  unfold fallbackNarrative
  apply string_append_ne_empty
  have h0 : ("\nProbable Root Cause: Based on error patterns ").length ≠ 0 := by decide
  rw [String.length_append, String.length_append, String.length_append]
  omega

/-- C6: for every log text, `detectErrorPatterns` returns a
duplicate-free subsequence of the fixed 19-entry vocabulary in
vocabulary order; an entry is included exactly when its lowercase form
is a substring of the lowercase text; and the detector is a pure
function, so re-running it on the same text yields the identical
list. -/
theorem c6_detect_error_patterns_spec :
    (∀ t : String, List.Sublist (extract_error_patterns t) errorIndicators ∧
      (extract_error_patterns t).Nodup) ∧
    (∀ t p : String,
      p ∈ extract_error_patterns t ↔ p ∈ errorIndicators ∧ lowerData p <:+: lowerData t) ∧
    (∀ t : String, extract_error_patterns t = extract_error_patterns t) := by
  refine ⟨fun t => ⟨List.filter_sublist _, (List.filter_sublist _).nodup (by decide)⟩,
    fun t p => ?_, fun t => rfl⟩
  rw [extract_error_patterns, List.mem_filter, isSubstrCL_iff]

/-- C7: for every input text, each of the four lists returned by
`extract_code_references` has length at most 10, contains no
duplicates, and is a subsequence of the corresponding raw accumulated
list (first-seen order preserved by the deduplication). -/
theorem c7_reference_list_bounds :
    ∀ t : String,
      ((extract_code_references t).files.length ≤ 10 ∧
        (extract_code_references t).files.Nodup ∧
        List.Sublist (extract_code_references t).files (extractRefsRaw t).files) ∧
      ((extract_code_references t).classes.length ≤ 10 ∧
        (extract_code_references t).classes.Nodup ∧
        List.Sublist (extract_code_references t).classes (extractRefsRaw t).classes) ∧
      ((extract_code_references t).methods.length ≤ 10 ∧
        (extract_code_references t).methods.Nodup ∧
        List.Sublist (extract_code_references t).methods (extractRefsRaw t).methods) ∧
      ((extract_code_references t).search_terms.length ≤ 10 ∧
        (extract_code_references t).search_terms.Nodup ∧
        List.Sublist (extract_code_references t).search_terms (extractRefsRaw t).search_terms) :=
  fun t =>
    ⟨dedup_take_ten_spec (extractRefsRaw t).files,
     dedup_take_ten_spec (extractRefsRaw t).classes,
     dedup_take_ten_spec (extractRefsRaw t).methods,
     dedup_take_ten_spec (extractRefsRaw t).search_terms⟩

/-- C3 counterexample: on the specification's Java-trace example the
extractor does not return exactly
`files=["OrderService.java"], types=["OrderService"],
methods=["process"], searchTerms=["OrderService process"]`. -/
theorem c3_counterexample_extra_generic_entries :
    extract_code_references javaTraceExample ≠
      ⟨["OrderService.java"], ["OrderService"], ["process"], ["OrderService process"]⟩ := by
  decide

/-- C3 (amended): on the Java-trace example the Java grammar yields the
claimed entries, but the generic `ClassName.methodName` grammar also
matches the substring `OrderService.java`, adding method `"java"` and
search term `"OrderService java"`. -/
theorem c3_java_trace_extraction :
    extract_code_references javaTraceExample =
      ⟨["OrderService.java"], ["OrderService"], ["process", "java"],
        ["OrderService process", "OrderService java"]⟩ := by
  decide

/-- C9: evaluation at the failing input.  A module-level Python frame
matches no grammar at all — the Python-trace method group `\w+` cannot
match `<module>` — so, contrary to the claim, the frame contributes
neither a method nor the search term `"p.py <module>"` (nor anything
else); the `method != "<module>"` guard in the source is unreachable. -/
theorem c9_module_frame_contributes_nothing :
    extract_code_references moduleFrameExample = ⟨[], [], [], []⟩ ∧
    "p.py <module>" ∉ (extract_code_references moduleFrameExample).search_terms := by
  exact ⟨by decide, by decide⟩

/-- C4: every similarity hit of the in-memory matcher records as
`matching_pattern` the first query pattern, in query order, present in
the matched incident's pattern set; and on the specification's
correlation example (history `[A, B]`, query `["500"]`) the matcher
returns hits for both `A` and `B`, in history traversal order, each
with matching pattern `"500"`. -/
theorem c4_matching_pattern_is_first :
    (∀ (store : List IncidentRecord) (qs : List String) (h : SimilarHit),
      h ∈ find_similar_incidents store qs →
      ∃ inc, inc ∈ store ∧ h.id = inc.incident_id ∧ h.severity = inc.severity ∧
        h.created_at = inc.timestamp ∧
        IsFirstPresentIn qs (getErrorPatterns inc.nlu_analysis) h.matching_pattern) ∧
    find_similar_incidents [incidentA, incidentB] ["500"] =
      [⟨"INC-A", "Medium", "2025-01-01T00:00:00", "500"⟩,
       ⟨"INC-B", "Medium", "2025-01-02T00:00:00", "500"⟩] := by
  constructor
  · intro store qs h hmem
    obtain ⟨inc, hs, hfind, hid, hsev, hts⟩ := mem_find_similar_incidents store qs h hmem
    exact ⟨inc, hs, hid, hsev, hts, (find?_contains_eq_some_iff _ _ _).mp hfind⟩
  · decide

/-- C4 witness: the general part of `c4_matching_pattern_is_first`
applied to the concrete example history and its first hit. -/
theorem c4_witness :
    ∃ inc, inc ∈ [incidentA, incidentB] ∧
      (SimilarHit.mk "INC-A" "Medium" "2025-01-01T00:00:00" "500").id = inc.incident_id ∧
      (SimilarHit.mk "INC-A" "Medium" "2025-01-01T00:00:00" "500").severity = inc.severity ∧
      (SimilarHit.mk "INC-A" "Medium" "2025-01-01T00:00:00" "500").created_at = inc.timestamp ∧
      IsFirstPresentIn ["500"] (getErrorPatterns inc.nlu_analysis)
        (SimilarHit.mk "INC-A" "Medium" "2025-01-01T00:00:00" "500").matching_pattern :=
  c4_matching_pattern_is_first.1 [incidentA, incidentB] ["500"]
    (SimilarHit.mk "INC-A" "Medium" "2025-01-01T00:00:00" "500") (by decide)

/-- C5: a similarity hit exists for a history incident only when that
incident's pattern set intersects the query set; the matcher with an
empty query pattern list returns the empty list for every history; and
if every store entry carrying an id has patterns disjoint from the
query, no hit carries that id (so two incidents sharing no pattern
never surface each other). -/
theorem c5_hits_require_shared_pattern :
    (∀ (store : List IncidentRecord) (qs : List String) (h : SimilarHit),
      h ∈ find_similar_incidents store qs →
      ∃ inc, inc ∈ store ∧ h.id = inc.incident_id ∧
        ∃ p, p ∈ qs ∧ p ∈ getErrorPatterns inc.nlu_analysis) ∧
    (∀ store : List IncidentRecord, find_similar_incidents store [] = []) ∧
    (∀ (store : List IncidentRecord) (qs : List String) (v : String),
      (∀ inc, inc ∈ store → inc.incident_id = v →
        ∀ p ∈ qs, p ∉ getErrorPatterns inc.nlu_analysis) →
      ∀ h, h ∈ find_similar_incidents store qs → h.id ≠ v) := by
  have part1 : ∀ (store : List IncidentRecord) (qs : List String) (h : SimilarHit),
      h ∈ find_similar_incidents store qs →
      ∃ inc, inc ∈ store ∧ h.id = inc.incident_id ∧
        ∃ p, p ∈ qs ∧ p ∈ getErrorPatterns inc.nlu_analysis := by
    intro store qs h hmem
    obtain ⟨inc, hs, hfind, hid, -, -⟩ := mem_find_similar_incidents store qs h hmem
    refine ⟨inc, hs, hid, h.matching_pattern, List.mem_of_find?_eq_some hfind, ?_⟩
    have := List.find?_some hfind
    simpa using this
  refine ⟨part1, ?_, ?_⟩
  · intro store
    rw [find_similar_incidents]
    rw [List.filterMap_eq_nil_iff.mpr (fun inc _ => by rw [List.find?_nil]; rfl)]
    rfl
  · intro store qs v hdisj h hmem hv
    obtain ⟨inc, hs, hid, p, hpq, hpinc⟩ := part1 store qs h hmem
    exact hdisj inc hs (hid ▸ hv) p hpq hpinc

/-- C5 witness: the disjointness part of `c5_hits_require_shared_pattern`
applied to a concrete store and hit: incident C shares no pattern with
the query `["500"]`, so the hit produced for incident A does not carry
C's id. -/
theorem c5_witness :
    (SimilarHit.mk "INC-A" "Medium" "2025-01-01T00:00:00" "500").id ≠ "INC-C" :=
  c5_hits_require_shared_pattern.2.2 [incidentA, incidentC] ["500"] "INC-C"
    (by decide) (SimilarHit.mk "INC-A" "Medium" "2025-01-01T00:00:00" "500") (by decide)

/-- C10 counterexample: with two store entries sharing the id
`"INC-D"` (possible since ids are 8-hex-character UUID prefixes, which
the store never checks for uniqueness), the matcher returns two hits
with the same incident id. -/
theorem c10_counterexample_duplicate_ids :
    (find_similar_incidents [dupIncident, dupIncident] ["500"]).map SimilarHit.id =
      ["INC-D", "INC-D"] ∧
    ¬ ((find_similar_incidents [dupIncident, dupIncident] ["500"]).map SimilarHit.id).Nodup := by
  exact ⟨by decide, by decide⟩

/-- C10 (amended): each scanned incident contributes at most one hit —
the hit ids form a subsequence of the scanned window's ids — so
whenever the window's ids are pairwise distinct the hit list never
contains two hits with the same incident id. -/
theorem c10_one_hit_per_incident :
    (∀ (store : List IncidentRecord) (qs : List String),
      List.Sublist ((find_similar_incidents store qs).map SimilarHit.id)
        ((store.drop (store.length - 20)).map IncidentRecord.incident_id)) ∧
    (∀ (store : List IncidentRecord) (qs : List String),
      ((store.drop (store.length - 20)).map IncidentRecord.incident_id).Nodup →
      ((find_similar_incidents store qs).map SimilarHit.id).Nodup) := by
  have key : ∀ (store : List IncidentRecord) (qs : List String),
      List.Sublist ((find_similar_incidents store qs).map SimilarHit.id)
        ((store.drop (store.length - 20)).map IncidentRecord.incident_id) := by
    intro store qs
    rw [find_similar_incidents, List.map_take]
    refine (List.take_sublist 5 _).trans ?_
    apply map_filterMap_sublist
    intro inc b hfb
    obtain ⟨p, -, hmk⟩ := Option.map_eq_some'.mp hfb
    rw [← hmk]
  exact ⟨key, fun store qs h => (key store qs).nodup h⟩

/-- C10 witness: the distinct-ids part of `c10_one_hit_per_incident`
applied to a concrete store with distinct ids. -/
theorem c10_witness :
    ((find_similar_incidents [incidentA, incidentB] ["500"]).map SimilarHit.id).Nodup :=
  c10_one_hit_per_incident.2 [incidentA, incidentB] ["500"] (by decide)

/-- C1: evaluation at the failing input.  The pipeline appends the new
incident to the store (`main.py` line 193) before
`_find_similar_incidents` scans the last 20 entries (line 325), and no
id is excluded, so a request whose log matches any pattern self-matches:
with an empty prior store and log `"Timeout"`, the response's
similarity hits consist exactly of the incident created by this very
request. -/
theorem c1_response_contains_fresh_incident :
    (analyze_root_cause degradedDeps [] "INC-AAAA1111" "2026-01-01T00:00:00"
        (plainRequest "Timeout")).1.similar_incidents =
      [⟨"INC-AAAA1111", "Medium", "2026-01-01T00:00:00", "Timeout"⟩] := by
  decide

/-- C2 counterexample: when the NLU analyzer is configured but its
external call fails, `analyze_error_log` returns the bare error dict,
so the response's evidence is empty even though the fixed-vocabulary
detector finds patterns in the same text — the claimed equality fails
and pattern detection is suppressed. -/
theorem c2_counterexample_failure_suppresses_patterns :
    (analyze_root_cause ⟨some (Except.error "NLU call timed out"), none⟩ []
        "INC-X" "t0" (plainRequest "KeyError")).1.evidence = [] ∧
    extract_error_patterns "KeyError" = ["Error", "KeyError"] ∧
    (analyze_root_cause ⟨some (Except.error "NLU call timed out"), none⟩ []
        "INC-X" "t0" (plainRequest "KeyError")).1.evidence ≠
      extract_error_patterns "KeyError" := by
  exact ⟨rfl, by decide, by decide⟩

/-- C2 (amended): the two degradations differ and neither reproduces
the full detector — when the enrichment capability is absent the
response's evidence is the output of the reduced six-indicator fallback
detector, and when the enrichment call fails the evidence is empty. -/
theorem c2_degraded_evidence :
    (∀ (w : Option (Except String String)) (store : List IncidentRecord)
        (newId ts : String) (req : AnalyzeRequest),
      (analyze_root_cause ⟨none, w⟩ store newId ts req).1.evidence =
        basic_error_patterns req.error_log) ∧
    (∀ (e : String) (w : Option (Except String String)) (store : List IncidentRecord)
        (newId ts : String) (req : AnalyzeRequest),
      (analyze_root_cause ⟨some (Except.error e), w⟩ store newId ts req).1.evidence = []) :=
  ⟨fun _ _ _ _ _ => rfl, fun _ _ _ _ _ _ => rfl⟩

/-- C8 counterexample: in the fully degraded configuration the response
does carry severity `"Medium"` and confidence `0.5`, but its evidence
is the reduced fallback detector's output, not the fixed-vocabulary
detector's: on `"KeyError occurred"` the evidence is `["Error"]` while
the detector returns `["Error", "KeyError"]`. -/
theorem c8_counterexample_evidence_not_full_detector :
    (analyze_root_cause degradedDeps [] "INC-X" "t0"
        (plainRequest "KeyError occurred")).1.severity = "Medium" ∧
    (analyze_root_cause degradedDeps [] "INC-X" "t0"
        (plainRequest "KeyError occurred")).1.confidence = 1/2 ∧
    (analyze_root_cause degradedDeps [] "INC-X" "t0"
        (plainRequest "KeyError occurred")).1.evidence = ["Error"] ∧
    extract_error_patterns "KeyError occurred" = ["Error", "KeyError"] ∧
    (analyze_root_cause degradedDeps [] "INC-X" "t0"
        (plainRequest "KeyError occurred")).1.evidence ≠
      extract_error_patterns "KeyError occurred" := by
  exact ⟨rfl, rfl, by decide, by decide, by decide⟩

/-- C8 (amended): with no enrichment, no narrative-synthesis and no
code-context capability, the pipeline still returns a fully populated
response: the generated incident id, severity `"Medium"`, confidence
`0.5`, a non-empty template narrative, the fixed suggested-fix string —
and evidence equal to the reduced six-indicator fallback detector's
output (not the full detector's). -/
theorem c8_degraded_pipeline_response :
    ∀ (store : List IncidentRecord) (newId ts : String) (req : AnalyzeRequest),
      (analyze_root_cause degradedDeps store newId ts req).1.incident_id = newId ∧
      (analyze_root_cause degradedDeps store newId ts req).1.severity = "Medium" ∧
      (analyze_root_cause degradedDeps store newId ts req).1.confidence = 1/2 ∧
      (analyze_root_cause degradedDeps store newId ts req).1.root_cause ≠ "" ∧
      (analyze_root_cause degradedDeps store newId ts req).1.evidence =
        basic_error_patterns req.error_log ∧
      (analyze_root_cause degradedDeps store newId ts req).1.suggested_fix =
        "See analysis above for specific recommendations" := by
  intro store newId ts req
  exact ⟨rfl, rfl, rfl, fallbackNarrative_ne_empty _ _, rfl, rfl⟩
